import Mathlib

/-!
Verification of the `ordinal-type` crate (`src/lib.rs`).

The crate provides `Ordinal<T>(pub T)`, a transparent wrapper around an
integer that renders itself as an English ordinal ("1st", "22nd", "113th").
We embed the wrapped type `T` as `Int`: every supported backing type
(`u8` .. `i128`, `usize`/`isize`, `BigInt`, `BigUint`) denotes a subset of
the mathematical integers, and all crate operations depend only on that
integer value (via `Display` and `ToPrimitive`).

`Ordinal::suffix` renders `self.0` with `to_string()` and then inspects the
resulting decimal string with `ends_with`; we embed the rendered string as
its character list, produced by a fuel-based digit loop mirroring the
standard decimal rendering, and later prove it equal to Lean's canonical
`Int.repr`.
-/

namespace OrdinalType

/-- Decimal digits of `n`, least significant first, as digit values.
Fuel-based loop mirroring the digit-extraction loop of standard decimal
rendering; the fuel `natDigitsRev` supplies is always sufficient. -/
def natDigitsRevGo : Nat → Nat → List Nat
  | 0, _ => []
  | fuel + 1, n => if n < 10 then [n] else n % 10 :: natDigitsRevGo fuel (n / 10)

/-- Decimal digits of `n`, least significant first (`[0]` for `0`). -/
def natDigitsRev (n : Nat) : List Nat :=
  natDigitsRevGo (n + 1) n

/-- Decimal character string of a natural number, most significant digit
first: the character list of Rust's `{}` rendering of an unsigned value. -/
def natToChars (n : Nat) : List Char :=
  ((natDigitsRev n).map Nat.digitChar).reverse

/-- Character list of Rust's `{}` (decimal `Display`) rendering of an
integer: the digits of the magnitude, preceded by `'-'` when negative. -/
def intToChars (i : Int) : List Char :=
  if i < 0 then '-' :: natToChars i.natAbs else natToChars i.natAbs

/-- Embedding of Rust `str::ends_with`: does `s` end with the suffix `t`? -/
def endsWithChars (s t : List Char) : Bool :=
  t.reverse.isPrefixOf s.reverse

/-- Embedding of `pub struct Ordinal<T>(pub T)` with the wrapped integer
value denoted as a mathematical integer. -/
structure Ordinal where
  val : Int
deriving DecidableEq

/-- Embedding of `Ordinal::suffix` (src/lib.rs lines 57-68): render
`self.0` to its decimal string and test `ends_with('1') && !ends_with("11")`
and so on, in the source's branch order. -/
def Ordinal.suffix (o : Ordinal) : String :=
  let lastDigits : List Char := intToChars o.val
  if endsWithChars lastDigits ['1'] && !endsWithChars lastDigits ['1', '1'] then "st"
  else if endsWithChars lastDigits ['2'] && !endsWithChars lastDigits ['1', '2'] then "nd"
  else if endsWithChars lastDigits ['3'] && !endsWithChars lastDigits ['1', '3'] then "rd"
  else "th"

/-- Embedding of `impl Display for Ordinal` (src/lib.rs lines 35-42):
`write!(f, "{}{}", self.0, self.suffix())`, the string produced by
`to_string()`. -/
def Ordinal.format (o : Ordinal) : String :=
  String.mk (intToChars o.val) ++ Ordinal.suffix o

/-- Embedding of `Ordinal::to_primitive` (src/lib.rs lines 71-73):
`self.0.clone()`. -/
def Ordinal.to_primitive (o : Ordinal) : Int :=
  o.val

/-- Result of a Rust call that either returns normally or panics.
`panicked msg` models `panic!` with the given message — an unwinding,
process-terminating fault, not a value handed back to the caller. -/
inductive PanicOr (α : Type) where
  | panicked (msg : String) : PanicOr α
  | returned (val : α) : PanicOr α
deriving DecidableEq

/-- Embedding of Rust `Option::expect(msg)`: returns the contained value,
or panics with `msg` when the option is `None`. -/
def expectMsg {α : Type} : Option α → String → PanicOr α
  | some a, _ => PanicOr.returned a
  | none, msg => PanicOr.panicked msg

/-- Embedding of `num_traits::ToPrimitive::to_u{8,16,32,64,128,size}` for an
integer-valued `T`: `Some` of the exact value when it lies in the unsigned
`bits`-bit range `[0, 2^bits)`, `None` otherwise. -/
def toUnsignedPrim (bits : Nat) (i : Int) : Option Int :=
  if 0 ≤ i ∧ i < 2 ^ bits then some i else none

/-- Embedding of `num_traits::ToPrimitive::to_i{8,16,32,64,128,size}` for an
integer-valued `T`: `Some` of the exact value when it lies in the signed
`bits`-bit range `[-2^(bits-1), 2^(bits-1))`, `None` otherwise. -/
def toSignedPrim (bits : Nat) (i : Int) : Option Int :=
  if -(2 ^ (bits - 1)) ≤ i ∧ i < 2 ^ (bits - 1) then some i else none

/-- Embedding of `Ordinal::to_u8` (src/lib.rs lines 76-78):
`self.0.to_u8().expect("Failed to convert to u8")`. -/
def Ordinal.to_u8 (o : Ordinal) : PanicOr Int :=
  expectMsg (toUnsignedPrim 8 o.val) "Failed to convert to u8"

/-- Embedding of `Ordinal::to_u16` (src/lib.rs lines 81-83). -/
def Ordinal.to_u16 (o : Ordinal) : PanicOr Int :=
  expectMsg (toUnsignedPrim 16 o.val) "Failed to convert to u16"

/-- Embedding of `Ordinal::to_u32` (src/lib.rs lines 86-88). -/
def Ordinal.to_u32 (o : Ordinal) : PanicOr Int :=
  expectMsg (toUnsignedPrim 32 o.val) "Failed to convert to u32"

/-- Embedding of `Ordinal::to_u64` (src/lib.rs lines 91-93). -/
def Ordinal.to_u64 (o : Ordinal) : PanicOr Int :=
  expectMsg (toUnsignedPrim 64 o.val) "Failed to convert to u64"

/-- Embedding of `Ordinal::to_u128` (src/lib.rs lines 96-98). -/
def Ordinal.to_u128 (o : Ordinal) : PanicOr Int :=
  expectMsg (toUnsignedPrim 128 o.val) "Failed to convert to u128"

/-- Embedding of `Ordinal::to_usize` (src/lib.rs lines 101-103); `usize` is
pointer-sized, so the width is a parameter `ptrBits`. -/
def Ordinal.to_usize (ptrBits : Nat) (o : Ordinal) : PanicOr Int :=
  expectMsg (toUnsignedPrim ptrBits o.val) "Failed to convert to usize"

/-- Embedding of `Ordinal::to_i8` (src/lib.rs lines 106-108):
`self.0.to_i8().expect("Failed to convert to i8")`. -/
def Ordinal.to_i8 (o : Ordinal) : PanicOr Int :=
  expectMsg (toSignedPrim 8 o.val) "Failed to convert to i8"

/-- Embedding of `Ordinal::to_i16` (src/lib.rs lines 111-113). -/
def Ordinal.to_i16 (o : Ordinal) : PanicOr Int :=
  expectMsg (toSignedPrim 16 o.val) "Failed to convert to i16"

/-- Embedding of `Ordinal::to_i32` (src/lib.rs lines 116-118). -/
def Ordinal.to_i32 (o : Ordinal) : PanicOr Int :=
  expectMsg (toSignedPrim 32 o.val) "Failed to convert to i32"

/-- Embedding of `Ordinal::to_i64` (src/lib.rs lines 121-123). -/
def Ordinal.to_i64 (o : Ordinal) : PanicOr Int :=
  expectMsg (toSignedPrim 64 o.val) "Failed to convert to i64"

/-- Embedding of `Ordinal::to_i128` (src/lib.rs lines 126-128). -/
def Ordinal.to_i128 (o : Ordinal) : PanicOr Int :=
  expectMsg (toSignedPrim 128 o.val) "Failed to convert to i128"

/-- Embedding of `Ordinal::to_isize` (src/lib.rs lines 131-133); `isize` is
pointer-sized, so the width is a parameter `ptrBits`. -/
def Ordinal.to_isize (ptrBits : Nat) (o : Ordinal) : PanicOr Int :=
  expectMsg (toSignedPrim ptrBits o.val) "Failed to convert to isize"

/-- A call to the `&self` method `suffix`, made explicit as (result,
receiver after the call): the receiver is only read, never written. -/
def Ordinal.suffixCall (o : Ordinal) : String × Ordinal :=
  (Ordinal.suffix o, o)

/-- A call to `to_string()` (via the `Display` impl), made explicit as
(result, receiver after the call). -/
def Ordinal.formatCall (o : Ordinal) : String × Ordinal :=
  (Ordinal.format o, o)

/-- A call to the `&self` method `to_primitive`, made explicit as (result,
receiver after the call). -/
def Ordinal.toPrimitiveCall (o : Ordinal) : Int × Ordinal :=
  (Ordinal.to_primitive o, o)

/-- Embedding of the `ToOrdinal` impls that `impl_to_ordinal_for_integers!`
expands for every primitive integer type (src/lib.rs lines 136-154):
`fn to_ordinal(&self) -> Ordinal<T> { Ordinal(*self) }`. -/
def to_ordinal (n : Int) : Ordinal :=
  Ordinal.mk n

/-- Modelled from the spec: the suffix rule stated with modular arithmetic
on the magnitude — "th" when the magnitude mod 100 is 11, 12 or 13, else
"st"/"nd"/"rd" when the magnitude mod 10 is 1/2/3, else "th". -/
def suffixByMod (m : Nat) : String :=
  if m % 100 = 11 ∨ m % 100 = 12 ∨ m % 100 = 13 then "th"
  else if m % 10 = 1 then "st"
  else if m % 10 = 2 then "nd"
  else if m % 10 = 3 then "rd"
  else "th"

/-! ### Structure of the rendered digit string -/

/-- The digit loop is insensitive to its fuel as long as the fuel exceeds
the input. -/
theorem natDigitsRevGo_fuel :
    ∀ f1 f2 n : Nat, n < f1 → n < f2 → natDigitsRevGo f1 n = natDigitsRevGo f2 n := by
  intro f1
  induction f1 with
  | zero => intro f2 n h1 h2; omega
  | succ f ih =>
    intro f2 n h1 h2
    cases f2 with
    | zero => omega
    | succ g =>
      by_cases hn : n < 10
      · simp [natDigitsRevGo, hn]
      · simp only [natDigitsRevGo, hn, if_false]
        rw [ih g (n / 10) (by omega) (by omega)]

/-- Digits of a one-digit number. -/
theorem natDigitsRev_lt {n : Nat} (h : n < 10) : natDigitsRev n = [n] := by
  simp [natDigitsRev, natDigitsRevGo, h]

/-- Unfolding the digit list of a number with at least two digits. -/
theorem natDigitsRev_ge {n : Nat} (h : 10 ≤ n) :
    natDigitsRev n = n % 10 :: natDigitsRev (n / 10) := by
  have h1 : ¬ n < 10 := by omega
  show natDigitsRevGo (n + 1) n = _
  simp only [natDigitsRevGo, h1, if_false]
  rw [natDigitsRevGo_fuel n (n / 10 + 1) (n / 10) (by omega) (by omega)]
  rfl

/-- The digit list always starts with the value's last decimal digit. -/
theorem natDigitsRev_head (n : Nat) : ∃ t, natDigitsRev n = n % 10 :: t := by
  rcases Nat.lt_or_ge n 10 with h | h
  · exact ⟨[], by rw [natDigitsRev_lt h, Nat.mod_eq_of_lt h]⟩
  · exact ⟨_, natDigitsRev_ge h⟩

/-- Reversing the rendered string puts the last decimal digit first and the
sign character (when present) last. -/
theorem intToChars_reverse (i : Int) :
    (intToChars i).reverse =
      (natDigitsRev i.natAbs).map Nat.digitChar ++ (if i < 0 then ['-'] else []) := by
  unfold intToChars natToChars
  split <;> simp

/-- On decimal digit values, `Nat.digitChar` is injective. -/
theorem digitChar_inj : ∀ a < 10, ∀ b < 10, (Nat.digitChar a = Nat.digitChar b ↔ a = b) := by
  decide

/-- A decimal digit character is never the minus sign. -/
theorem digitChar_ne_dash : ∀ a < 10, Nat.digitChar a ≠ '-' := by
  decide

/-- The rendered string of `i` ends with the digit character of `d` exactly
when the magnitude of `i` is `d` modulo 10. -/
theorem endsWith_digit_iff (i : Int) (d : Nat) (hd : d < 10) :
    endsWithChars (intToChars i) [Nat.digitChar d] = true ↔ i.natAbs % 10 = d := by
  obtain ⟨t, ht⟩ := natDigitsRev_head i.natAbs
  unfold endsWithChars
  rw [intToChars_reverse, ht]
  simp only [List.reverse_cons, List.reverse_nil, List.nil_append, List.map_cons,
    List.cons_append, List.isPrefixOf, List.isPrefixOf_nil_left, Bool.and_true, beq_iff_eq]
  rw [digitChar_inj d hd (i.natAbs % 10) (Nat.mod_lt _ (by omega)), eq_comm]

/-- The rendered string of `i` ends with `'1'` followed by the digit
character of `d` exactly when the magnitude of `i` is `10 + d` modulo
100. -/
theorem endsWith_teen_iff (i : Int) (d : Nat) (hd1 : 1 ≤ d) (hd : d < 10) :
    endsWithChars (intToChars i) ['1', Nat.digitChar d] = true ↔ i.natAbs % 100 = 10 + d := by
  unfold endsWithChars
  rw [intToChars_reverse]
  generalize i.natAbs = m
  rcases Nat.lt_or_ge m 10 with h | h
  · rw [natDigitsRev_lt h]
    by_cases hi : i < 0
    · simp only [hi, if_true, List.map_cons, List.map_nil, List.reverse_cons, List.reverse_nil,
        List.nil_append, List.cons_append, List.isPrefixOf, Bool.and_eq_true, beq_iff_eq]
      constructor
      · rintro ⟨-, h2, -⟩
        exact absurd h2 (by decide)
      · intro h2
        rw [Nat.mod_eq_of_lt (by omega)] at h2
        omega
    · simp only [hi, if_false, List.map_cons, List.map_nil, List.reverse_cons, List.reverse_nil,
        List.nil_append, List.append_nil, List.isPrefixOf, Bool.and_eq_true, beq_iff_eq]
      constructor
      · rintro ⟨-, h2⟩
        exact absurd h2 (by simp)
      · intro h2
        rw [Nat.mod_eq_of_lt (by omega)] at h2
        omega
  · rw [natDigitsRev_ge h]
    obtain ⟨t2, ht2⟩ := natDigitsRev_head (m / 10)
    rw [ht2]
    simp only [List.reverse_cons, List.reverse_nil, List.nil_append, List.map_cons,
      List.cons_append, List.isPrefixOf, List.isPrefixOf_nil_left, Bool.and_true,
      Bool.and_eq_true, beq_iff_eq]
    rw [digitChar_inj d hd (m % 10) (Nat.mod_lt _ (by omega)),
      show ('1' : Char) = Nat.digitChar 1 from rfl,
      digitChar_inj 1 (by omega) (m / 10 % 10) (Nat.mod_lt _ (by omega))]
    omega

/-! ### The suffix rule, modularly -/

/-- The suffix computed from the digit string agrees with the modular
statement of the rule on the magnitude, for every integer. -/
theorem suffix_eq_suffixByMod (n : Int) : Ordinal.suffix ⟨n⟩ = suffixByMod n.natAbs := by
  have e1 : endsWithChars (intToChars n) ['1'] = true ↔ n.natAbs % 10 = 1 :=
    endsWith_digit_iff n 1 (by omega)
  have e2 : endsWithChars (intToChars n) ['2'] = true ↔ n.natAbs % 10 = 2 :=
    endsWith_digit_iff n 2 (by omega)
  have e3 : endsWithChars (intToChars n) ['3'] = true ↔ n.natAbs % 10 = 3 :=
    endsWith_digit_iff n 3 (by omega)
  have t1 : endsWithChars (intToChars n) ['1', '1'] = true ↔ n.natAbs % 100 = 11 :=
    endsWith_teen_iff n 1 (by omega) (by omega)
  have t2 : endsWithChars (intToChars n) ['1', '2'] = true ↔ n.natAbs % 100 = 12 :=
    endsWith_teen_iff n 2 (by omega) (by omega)
  have t3 : endsWithChars (intToChars n) ['1', '3'] = true ↔ n.natAbs % 100 = 13 :=
    endsWith_teen_iff n 3 (by omega) (by omega)
  simp only [Ordinal.suffix, suffixByMod, Bool.and_eq_true, Bool.not_eq_true', Bool.eq_false_iff,
    ne_eq, e1, e2, e3, t1, t2, t3]
  generalize n.natAbs = m
  split_ifs <;> first | rfl | omega

/-! ### The rendered string is the canonical decimal representation -/

/-- The fuel-based core of Lean's canonical `Nat.repr` produces exactly the
digit string of the embedding, given sufficient fuel. -/
theorem toDigitsCore_eq (n : Nat) : ∀ (f : Nat) (ds : List Char), n < f →
    Nat.toDigitsCore 10 f n ds = ((natDigitsRev n).map Nat.digitChar).reverse ++ ds := by
  induction n using Nat.strong_induction_on with
  | _ n ih =>
    intro f ds hf
    cases f with
    | zero => omega
    | succ f =>
      simp only [Nat.toDigitsCore]
      by_cases h : n / 10 = 0
      · rw [if_pos h, natDigitsRev_lt (by omega), Nat.mod_eq_of_lt (by omega)]
        simp
      · rw [if_neg h, natDigitsRev_ge (by omega),
          ih (n / 10) (Nat.div_lt_self (by omega) (by omega)) f
            (Nat.digitChar (n % 10) :: ds) (by omega)]
        simp

/-- The embedded rendering of a natural number is Lean's `Nat.repr`. -/
theorem natToChars_eq_repr (n : Nat) : String.mk (natToChars n) = Nat.repr n := by
  unfold Nat.repr Nat.toDigits
  rw [toDigitsCore_eq n (n + 1) [] (by omega)]
  simp [natToChars, List.asString]

/-- Building a string from concatenated character lists is appending the
corresponding strings. -/
theorem stringMk_append (a b : List Char) : String.mk (a ++ b) = String.mk a ++ String.mk b :=
  rfl

/-- The embedded rendering of an integer is Lean's canonical decimal
representation `Int.repr` (minus sign included for negative values). -/
theorem intToChars_eq_repr (i : Int) : String.mk (intToChars i) = Int.repr i := by
  cases i with
  | ofNat m =>
    have h : ¬ ((Int.ofNat m) < 0) := Int.not_lt.mpr (Int.ofNat_zero_le m)
    unfold intToChars
    rw [if_neg h, Int.repr]
    exact natToChars_eq_repr m
  | negSucc m =>
    have h : (Int.negSucc m) < 0 := Int.negSucc_lt_zero m
    unfold intToChars
    rw [if_pos h, Int.natAbs_negSucc, Int.repr,
      show ('-' :: natToChars (m + 1)) = ['-'] ++ natToChars (m + 1) from rfl,
      stringMk_append, natToChars_eq_repr, show String.mk ['-'] = "-" from by decide]

/-! ### Narrowing conversions -/

/-- Narrowing to an unsigned width either returns the exact value (when in
range) or panics with the given message. -/
theorem expectMsg_unsigned_eq (bits : Nat) (msg : String) (i : Int) :
    expectMsg (toUnsignedPrim bits i) msg =
      if 0 ≤ i ∧ i < 2 ^ bits then PanicOr.returned i else PanicOr.panicked msg := by
  by_cases h : 0 ≤ i ∧ i < 2 ^ bits <;> simp [toUnsignedPrim, expectMsg, h]

/-- Narrowing to a signed width either returns the exact value (when in
range) or panics with the given message. -/
theorem expectMsg_signed_eq (bits : Nat) (msg : String) (i : Int) :
    expectMsg (toSignedPrim bits i) msg =
      if -(2 ^ (bits - 1)) ≤ i ∧ i < 2 ^ (bits - 1) then PanicOr.returned i
      else PanicOr.panicked msg := by
  by_cases h : -(2 ^ (bits - 1)) ≤ i ∧ i < 2 ^ (bits - 1) <;>
    simp [toSignedPrim, expectMsg, h]

/-- Unsigned narrowing succeeds with the exact value precisely when the
value lies in the unsigned range. -/
theorem unsigned_ok_iff (bits : Nat) (msg : String) (i : Int) :
    expectMsg (toUnsignedPrim bits i) msg = PanicOr.returned i ↔ 0 ≤ i ∧ i < 2 ^ bits := by
  rw [expectMsg_unsigned_eq]
  by_cases h : 0 ≤ i ∧ i < 2 ^ bits <;> simp [h]

/-- Signed narrowing succeeds with the exact value precisely when the value
lies in the signed range. -/
theorem signed_ok_iff (bits : Nat) (msg : String) (i : Int) :
    expectMsg (toSignedPrim bits i) msg = PanicOr.returned i ↔
      -(2 ^ (bits - 1)) ≤ i ∧ i < 2 ^ (bits - 1) := by
  rw [expectMsg_signed_eq]
  by_cases h : -(2 ^ (bits - 1)) ≤ i ∧ i < 2 ^ (bits - 1) <;> simp [h]

/-- Unsigned narrowing never produces any value other than the wrapped one:
it either returns it exactly or panics. -/
theorem unsigned_dichotomy (bits : Nat) (msg : String) (i : Int) :
    expectMsg (toUnsignedPrim bits i) msg = PanicOr.returned i ∨
      expectMsg (toUnsignedPrim bits i) msg = PanicOr.panicked msg := by
  rw [expectMsg_unsigned_eq]
  by_cases h : 0 ≤ i ∧ i < 2 ^ bits <;> simp [h]

/-- Signed narrowing never produces any value other than the wrapped one:
it either returns it exactly or panics. -/
theorem signed_dichotomy (bits : Nat) (msg : String) (i : Int) :
    expectMsg (toSignedPrim bits i) msg = PanicOr.returned i ∨
      expectMsg (toSignedPrim bits i) msg = PanicOr.panicked msg := by
  rw [expectMsg_signed_eq]
  by_cases h : -(2 ^ (bits - 1)) ≤ i ∧ i < 2 ^ (bits - 1) <;> simp [h]

example : Ordinal.suffix ⟨1⟩ = "st" := by decide
example : Ordinal.suffix ⟨111⟩ = "th" := by decide
example : Ordinal.suffix ⟨-22⟩ = "nd" := by decide
example : Ordinal.format ⟨-4⟩ = "-4th" := by decide
example : Ordinal.format ⟨121⟩ = "121st" := by decide
example : Ordinal.to_u8 ⟨255⟩ = PanicOr.returned 255 := by decide

/-! ### Claims -/

/-- C1: for every integer value `n`, `suffix(n)` returns `"th"` when the
absolute magnitude of `n` modulo 100 is 11, 12, or 13; otherwise it returns
`"st"` when `|n| mod 10 = 1`, `"nd"` when `|n| mod 10 = 2`, `"rd"` when
`|n| mod 10 = 3`, and `"th"` in every other case. -/
theorem suffix_matches_mod_rule (n : Int) :
    Ordinal.suffix ⟨n⟩ =
      if n.natAbs % 100 = 11 ∨ n.natAbs % 100 = 12 ∨ n.natAbs % 100 = 13 then "th"
      else if n.natAbs % 10 = 1 then "st"
      else if n.natAbs % 10 = 2 then "nd"
      else if n.natAbs % 10 = 3 then "rd"
      else "th" :=
  suffix_eq_suffixByMod n

/-- C2 counterexample: at wrapped value 300 the narrowing operations `to_u8`
and `to_i8` do not report a typed, recoverable result — they panic
(`Option::expect` on `None`), a process-terminating fault, contradicting the
claim. -/
theorem narrowing_panics_at_300 :
    Ordinal.to_u8 ⟨300⟩ = PanicOr.panicked "Failed to convert to u8" ∧
    Ordinal.to_i8 ⟨300⟩ = PanicOr.panicked "Failed to convert to i8" :=
  ⟨by decide, by decide⟩

/-- C2 amended: every narrowing operation, whenever the wrapped value cannot
be represented in the requested fixed-width type, fails by panicking with
the message `"Failed to convert to <type>"` — a process-terminating fault,
not a typed recoverable result — and never silently wraps. -/
theorem narrowing_panics_when_out_of_range (ptrBits : Nat) (n : Int) :
    (¬ (0 ≤ n ∧ n < 2 ^ 8) →
      Ordinal.to_u8 ⟨n⟩ = PanicOr.panicked "Failed to convert to u8") ∧
    (¬ (0 ≤ n ∧ n < 2 ^ 16) →
      Ordinal.to_u16 ⟨n⟩ = PanicOr.panicked "Failed to convert to u16") ∧
    (¬ (0 ≤ n ∧ n < 2 ^ 32) →
      Ordinal.to_u32 ⟨n⟩ = PanicOr.panicked "Failed to convert to u32") ∧
    (¬ (0 ≤ n ∧ n < 2 ^ 64) →
      Ordinal.to_u64 ⟨n⟩ = PanicOr.panicked "Failed to convert to u64") ∧
    (¬ (0 ≤ n ∧ n < 2 ^ 128) →
      Ordinal.to_u128 ⟨n⟩ = PanicOr.panicked "Failed to convert to u128") ∧
    (¬ (0 ≤ n ∧ n < 2 ^ ptrBits) →
      Ordinal.to_usize ptrBits ⟨n⟩ = PanicOr.panicked "Failed to convert to usize") ∧
    (¬ (-(2 ^ 7) ≤ n ∧ n < 2 ^ 7) →
      Ordinal.to_i8 ⟨n⟩ = PanicOr.panicked "Failed to convert to i8") ∧
    (¬ (-(2 ^ 15) ≤ n ∧ n < 2 ^ 15) →
      Ordinal.to_i16 ⟨n⟩ = PanicOr.panicked "Failed to convert to i16") ∧
    (¬ (-(2 ^ 31) ≤ n ∧ n < 2 ^ 31) →
      Ordinal.to_i32 ⟨n⟩ = PanicOr.panicked "Failed to convert to i32") ∧
    (¬ (-(2 ^ 63) ≤ n ∧ n < 2 ^ 63) →
      Ordinal.to_i64 ⟨n⟩ = PanicOr.panicked "Failed to convert to i64") ∧
    (¬ (-(2 ^ 127) ≤ n ∧ n < 2 ^ 127) →
      Ordinal.to_i128 ⟨n⟩ = PanicOr.panicked "Failed to convert to i128") ∧
    (¬ (-(2 ^ (ptrBits - 1)) ≤ n ∧ n < 2 ^ (ptrBits - 1)) →
      Ordinal.to_isize ptrBits ⟨n⟩ = PanicOr.panicked "Failed to convert to isize") := by
  refine ⟨fun h => ?_, fun h => ?_, fun h => ?_, fun h => ?_, fun h => ?_, fun h => ?_,
    fun h => ?_, fun h => ?_, fun h => ?_, fun h => ?_, fun h => ?_, fun h => ?_⟩ <;>
    first
    | exact (expectMsg_unsigned_eq _ _ n).trans (if_neg h)
    | exact (expectMsg_signed_eq _ _ n).trans (if_neg h)

/-- C2 witness: the amended theorem applied at pointer width 64 and wrapped
value `10 ^ 40`, which is out of range for every fixed width. -/
theorem narrowing_out_of_range_witness :
    Ordinal.to_u8 ⟨10 ^ 40⟩ = PanicOr.panicked "Failed to convert to u8" ∧
    Ordinal.to_u16 ⟨10 ^ 40⟩ = PanicOr.panicked "Failed to convert to u16" ∧
    Ordinal.to_u32 ⟨10 ^ 40⟩ = PanicOr.panicked "Failed to convert to u32" ∧
    Ordinal.to_u64 ⟨10 ^ 40⟩ = PanicOr.panicked "Failed to convert to u64" ∧
    Ordinal.to_u128 ⟨10 ^ 40⟩ = PanicOr.panicked "Failed to convert to u128" ∧
    Ordinal.to_usize 64 ⟨10 ^ 40⟩ = PanicOr.panicked "Failed to convert to usize" ∧
    Ordinal.to_i8 ⟨10 ^ 40⟩ = PanicOr.panicked "Failed to convert to i8" ∧
    Ordinal.to_i16 ⟨10 ^ 40⟩ = PanicOr.panicked "Failed to convert to i16" ∧
    Ordinal.to_i32 ⟨10 ^ 40⟩ = PanicOr.panicked "Failed to convert to i32" ∧
    Ordinal.to_i64 ⟨10 ^ 40⟩ = PanicOr.panicked "Failed to convert to i64" ∧
    Ordinal.to_i128 ⟨10 ^ 40⟩ = PanicOr.panicked "Failed to convert to i128" ∧
    Ordinal.to_isize 64 ⟨10 ^ 40⟩ = PanicOr.panicked "Failed to convert to isize" := by
  have H := narrowing_panics_when_out_of_range 64 (10 ^ 40)
  exact ⟨H.1 (by decide), H.2.1 (by decide), H.2.2.1 (by decide), H.2.2.2.1 (by decide),
    H.2.2.2.2.1 (by decide), H.2.2.2.2.2.1 (by decide), H.2.2.2.2.2.2.1 (by decide),
    H.2.2.2.2.2.2.2.1 (by decide), H.2.2.2.2.2.2.2.2.1 (by decide),
    H.2.2.2.2.2.2.2.2.2.1 (by decide), H.2.2.2.2.2.2.2.2.2.2.1 (by decide),
    H.2.2.2.2.2.2.2.2.2.2.2 (by decide)⟩

/-- C3: for every integer value `n`, the `Display` rendering of
`Ordinal(n)` equals the canonical decimal string of `n` (leading minus sign
for negative `n`) concatenated with `suffix(n)`; in particular
`format(-4) = "-4th"`. -/
theorem format_is_decimal_append_suffix (n : Int) :
    Ordinal.format ⟨n⟩ = Int.repr n ++ Ordinal.suffix ⟨n⟩ := by
  unfold Ordinal.format
  rw [intToChars_eq_repr]

/-- C4: for every integer `n`, `suffix(n) = suffix(-n)`: the sign of the
wrapped value never affects which suffix is selected. -/
theorem suffix_sign_independent (n : Int) : Ordinal.suffix ⟨n⟩ = Ordinal.suffix ⟨-n⟩ := by
  rw [suffix_eq_suffixByMod, suffix_eq_suffixByMod, Int.natAbs_neg]

/-- C5: extracting the value from a freshly wrapped ordinal returns exactly
the wrapped value; `to_primitive` is total, so it never fails. -/
theorem to_primitive_roundtrip (n : Int) : Ordinal.to_primitive ⟨n⟩ = n :=
  rfl

/-- C6: every narrowing operation succeeds with exactly the wrapped value
precisely when that value is representable in the requested type, and
otherwise does not succeed (it panics; it never produces any other
value). -/
theorem narrowing_ok_iff_in_range (ptrBits : Nat) (n : Int) :
    (Ordinal.to_u8 ⟨n⟩ = PanicOr.returned n ↔ 0 ≤ n ∧ n < 2 ^ 8) ∧
    (Ordinal.to_u8 ⟨n⟩ = PanicOr.returned n ∨
      Ordinal.to_u8 ⟨n⟩ = PanicOr.panicked "Failed to convert to u8") ∧
    (Ordinal.to_u16 ⟨n⟩ = PanicOr.returned n ↔ 0 ≤ n ∧ n < 2 ^ 16) ∧
    (Ordinal.to_u16 ⟨n⟩ = PanicOr.returned n ∨
      Ordinal.to_u16 ⟨n⟩ = PanicOr.panicked "Failed to convert to u16") ∧
    (Ordinal.to_u32 ⟨n⟩ = PanicOr.returned n ↔ 0 ≤ n ∧ n < 2 ^ 32) ∧
    (Ordinal.to_u32 ⟨n⟩ = PanicOr.returned n ∨
      Ordinal.to_u32 ⟨n⟩ = PanicOr.panicked "Failed to convert to u32") ∧
    (Ordinal.to_u64 ⟨n⟩ = PanicOr.returned n ↔ 0 ≤ n ∧ n < 2 ^ 64) ∧
    (Ordinal.to_u64 ⟨n⟩ = PanicOr.returned n ∨
      Ordinal.to_u64 ⟨n⟩ = PanicOr.panicked "Failed to convert to u64") ∧
    (Ordinal.to_u128 ⟨n⟩ = PanicOr.returned n ↔ 0 ≤ n ∧ n < 2 ^ 128) ∧
    (Ordinal.to_u128 ⟨n⟩ = PanicOr.returned n ∨
      Ordinal.to_u128 ⟨n⟩ = PanicOr.panicked "Failed to convert to u128") ∧
    (Ordinal.to_usize ptrBits ⟨n⟩ = PanicOr.returned n ↔ 0 ≤ n ∧ n < 2 ^ ptrBits) ∧
    (Ordinal.to_usize ptrBits ⟨n⟩ = PanicOr.returned n ∨
      Ordinal.to_usize ptrBits ⟨n⟩ = PanicOr.panicked "Failed to convert to usize") ∧
    (Ordinal.to_i8 ⟨n⟩ = PanicOr.returned n ↔ -(2 ^ 7) ≤ n ∧ n < 2 ^ 7) ∧
    (Ordinal.to_i8 ⟨n⟩ = PanicOr.returned n ∨
      Ordinal.to_i8 ⟨n⟩ = PanicOr.panicked "Failed to convert to i8") ∧
    (Ordinal.to_i16 ⟨n⟩ = PanicOr.returned n ↔ -(2 ^ 15) ≤ n ∧ n < 2 ^ 15) ∧
    (Ordinal.to_i16 ⟨n⟩ = PanicOr.returned n ∨
      Ordinal.to_i16 ⟨n⟩ = PanicOr.panicked "Failed to convert to i16") ∧
    (Ordinal.to_i32 ⟨n⟩ = PanicOr.returned n ↔ -(2 ^ 31) ≤ n ∧ n < 2 ^ 31) ∧
    (Ordinal.to_i32 ⟨n⟩ = PanicOr.returned n ∨
      Ordinal.to_i32 ⟨n⟩ = PanicOr.panicked "Failed to convert to i32") ∧
    (Ordinal.to_i64 ⟨n⟩ = PanicOr.returned n ↔ -(2 ^ 63) ≤ n ∧ n < 2 ^ 63) ∧
    (Ordinal.to_i64 ⟨n⟩ = PanicOr.returned n ∨
      Ordinal.to_i64 ⟨n⟩ = PanicOr.panicked "Failed to convert to i64") ∧
    (Ordinal.to_i128 ⟨n⟩ = PanicOr.returned n ↔ -(2 ^ 127) ≤ n ∧ n < 2 ^ 127) ∧
    (Ordinal.to_i128 ⟨n⟩ = PanicOr.returned n ∨
      Ordinal.to_i128 ⟨n⟩ = PanicOr.panicked "Failed to convert to i128") ∧
    (Ordinal.to_isize ptrBits ⟨n⟩ = PanicOr.returned n ↔
      -(2 ^ (ptrBits - 1)) ≤ n ∧ n < 2 ^ (ptrBits - 1)) ∧
    (Ordinal.to_isize ptrBits ⟨n⟩ = PanicOr.returned n ∨
      Ordinal.to_isize ptrBits ⟨n⟩ = PanicOr.panicked "Failed to convert to isize") :=
  ⟨unsigned_ok_iff 8 _ n, unsigned_dichotomy 8 _ n,
    unsigned_ok_iff 16 _ n, unsigned_dichotomy 16 _ n,
    unsigned_ok_iff 32 _ n, unsigned_dichotomy 32 _ n,
    unsigned_ok_iff 64 _ n, unsigned_dichotomy 64 _ n,
    unsigned_ok_iff 128 _ n, unsigned_dichotomy 128 _ n,
    unsigned_ok_iff ptrBits _ n, unsigned_dichotomy ptrBits _ n,
    signed_ok_iff 8 _ n, signed_dichotomy 8 _ n,
    signed_ok_iff 16 _ n, signed_dichotomy 16 _ n,
    signed_ok_iff 32 _ n, signed_dichotomy 32 _ n,
    signed_ok_iff 64 _ n, signed_dichotomy 64 _ n,
    signed_ok_iff 128 _ n, signed_dichotomy 128 _ n,
    signed_ok_iff ptrBits _ n, signed_dichotomy ptrBits _ n⟩

/-- C6 witness: the equivalence applied at pointer width 64 and wrapped
value 42, which is representable in `u8`. -/
theorem narrowing_ok_witness : Ordinal.to_u8 ⟨42⟩ = PanicOr.returned 42 :=
  (narrowing_ok_iff_in_range 64 42).1.mpr (by decide)

/-- C7: for every integer value `n`, `suffix(n)` is one of exactly the four
strings `"st"`, `"nd"`, `"rd"`, `"th"`; the suffix computation is a total
function, so it never fails. -/
theorem suffix_is_one_of_four (n : Int) :
    Ordinal.suffix ⟨n⟩ = "st" ∨ Ordinal.suffix ⟨n⟩ = "nd" ∨
      Ordinal.suffix ⟨n⟩ = "rd" ∨ Ordinal.suffix ⟨n⟩ = "th" := by
  rw [suffix_eq_suffixByMod]
  unfold suffixByMod
  split_ifs <;> simp

/-- C8: calling `suffix()`, `to_string()` or `to_primitive()` leaves the
wrapped value unchanged: each is a read-only (`&self`) call whose receiver
after the call still holds the original value. -/
theorem calls_leave_value_unchanged (n : Int) :
    (Ordinal.suffixCall ⟨n⟩).2.val = n ∧ (Ordinal.formatCall ⟨n⟩).2.val = n ∧
      (Ordinal.toPrimitiveCall ⟨n⟩).2.val = n :=
  ⟨rfl, rfl, rfl⟩

/-- C9: the free conversion `to_ordinal()` produces exactly the same wrapper
as direct construction, and in particular renders to the same string. -/
theorem to_ordinal_is_construction (n : Int) :
    to_ordinal n = Ordinal.mk n ∧
      Ordinal.format (to_ordinal n) = Ordinal.format (Ordinal.mk n) :=
  ⟨rfl, rfl⟩

/-- C10: for the value zero, `suffix(0) = "th"` and `format(0) = "0th"`:
the decimal string `"0"` ends in none of `'1'`, `'2'`, `'3'`, so the
decision procedure falls through to the final branch. -/
theorem zero_formats_as_0th : Ordinal.suffix ⟨0⟩ = "th" ∧ Ordinal.format ⟨0⟩ = "0th" :=
  ⟨by decide, by decide⟩

end OrdinalType
